import Mathlib

/-!
Shallow embedding of the PID track-cut configuration and decision engine of
`PWGCF/Correlations/DPhi/Unfoldedhistos/AliCSPIDCuts.cxx` (class
`AliCSPIDCuts`), together with theorems checking the natural-language
specification of the module against this embedding.

Machine floating-point values (`Float_t` / `Double_t` thresholds, momenta and
nsigma values) are modelled as rationals; the discrete configuration codes are
modelled as `Int`.  Each C++ member function that mutates the object is
embedded as a state transformer `PIDCutsState → ... → Bool × PIDCutsState`
returning the C++ `Bool_t` result together with the post-state; a function
that returns `kFALSE` without touching any member returns the input state
unchanged.
-/

set_option maxHeartbeats 1000000

namespace AliCSPIDCuts

/-- Particle species identifiers, mirroring the `AliPID::EParticleType`
values used by `AliCSPIDCuts` (the five charged species addressed by the
setters, plus `kUnknown` as returned by `GetTrueSpecies` for any other
particle). -/
inductive PSpecies
  | kElectron
  | kMuon
  | kPion
  | kKaon
  | kProton
  | kUnknown
deriving DecidableEq, Fintype, Repr

/-- Identifiers of the four cut categories, mirroring the `cutsIds`
enumeration used as bit numbers of `fCutsEnabledMask`. -/
inductive CutsIds
  | kITSdEdxSigmaCut
  | kTPCdEdxSigmaCut
  | kTOFSigmaCut
  | kTPCTOF2DSigmaCut
deriving DecidableEq, Fintype, Repr

/-- Identifiers of the cut parameters, mirroring the `cutsParametersIds`
enumeration dispatched on by `AliCSPIDCuts::SetCutAndParams`. -/
inductive CutsParametersIds
  | kPMinCutParam
  | kPMaxCutParam
  | kITSdEdxSigmaCutParam_e
  | kITSdEdxSigmaCutParam_mu
  | kITSdEdxSigmaCutParam_pi
  | kITSdEdxSigmaCutParam_k
  | kITSdEdxSigmaCutParam_p
  | kTPCdEdxSigmaCutParam_e
  | kTPCdEdxSigmaCutParam_mu
  | kTPCdEdxSigmaCutParam_pi
  | kTPCdEdxSigmaCutParam_k
  | kTPCdEdxSigmaCutParam_p
  | kTOFSigmaCutParam_e
  | kTOFSigmaCutParam_mu
  | kTOFSigmaCutParam_pi
  | kTOFSigmaCutParam_k
  | kTOFSigmaCutParam_p
  | kTPCTOFCutParam
deriving DecidableEq, Fintype, Repr

/-- All species, in the `AliPID` index order; used to model
`TBits::CountBits` over the species masks. -/
def speciesList : List PSpecies :=
  [.kElectron, .kMuon, .kPion, .kKaon, .kProton, .kUnknown]

/-- Model of `TBits::CountBits` for a per-species enable mask. -/
def countBits (m : PSpecies → Bool) : Nat :=
  (speciesList.filter m).length

/-- The configuration state of an `AliCSPIDCuts` instance: the members of
the C++ class that the configuration and decision functions read or write
(the QA histogram members are plumbing and are not part of the state).
`fParameters` and the cuts string live in the cuts base class; see
`UpdateCutsString`. -/
structure PIDCutsState where
  fMinP : ℚ
  fMaxP : ℚ
  fTOFRequired : Bool
  fTPCTOF2Dcut : Bool
  fITSnSigmaAbove : PSpecies → ℚ
  fITSnSigmaBelow : PSpecies → ℚ
  fTPCnSigmaAbove : PSpecies → ℚ
  fTPCnSigmaBelow : PSpecies → ℚ
  fTOFnSigmaAbove : PSpecies → ℚ
  fTOFnSigmaBelow : PSpecies → ℚ
  fCutsEnabledMask : CutsIds → Bool
  fITSEnabledSpeciesMask : PSpecies → Bool
  fTPCEnabledSpeciesMask : PSpecies → Bool
  fTOFEnabledSpeciesMask : PSpecies → Bool
  fTPCTOF2DEnabledSpeciesMask : PSpecies → Bool
  fTargetSpecies : PSpecies
  fParameters : CutsParametersIds → Int
  fCutsString : List Int
deriving DecidableEq

/-- Embedding of the `AliCSPIDCuts` constructor member initialisation:
`fMinP = 0.0`, `fMaxP = 9999.0`, both flags false, all enable masks reset.
The C++ array initialisers `{100.0}` / `{-100.0}` set element 0 (the
electron slot) and value-initialise the remaining slots to 0.
`fParameters` and the cuts string are base-class members (not among the
sources) and are taken as zero-initialised. -/
def constructedState (target : PSpecies) : PIDCutsState where
  fMinP := 0
  fMaxP := 9999
  fTOFRequired := false
  fTPCTOF2Dcut := false
  fITSnSigmaAbove := fun sp => if sp = .kElectron then 100 else 0
  fITSnSigmaBelow := fun sp => if sp = .kElectron then -100 else 0
  fTPCnSigmaAbove := fun sp => if sp = .kElectron then 100 else 0
  fTPCnSigmaBelow := fun sp => if sp = .kElectron then -100 else 0
  fTOFnSigmaAbove := fun sp => if sp = .kElectron then 100 else 0
  fTOFnSigmaBelow := fun sp => if sp = .kElectron then -100 else 0
  fCutsEnabledMask := fun _ => false
  fITSEnabledSpeciesMask := fun _ => false
  fTPCEnabledSpeciesMask := fun _ => false
  fTOFEnabledSpeciesMask := fun _ => false
  fTPCTOF2DEnabledSpeciesMask := fun _ => false
  fTargetSpecies := target
  fParameters := fun _ => 0
  fCutsString := []

/-- Embedding of `AliCSPIDCuts::SetPMin`: code 0 sets `fMinP = 0.0`,
codes 1..9 set `fMinP = (pcode + 1) / 10.0`, other codes are rejected
without touching the state. -/
def SetPMin (s : PIDCutsState) (pcode : Int) : Bool × PIDCutsState :=
  if pcode = 0 then
    (true, { s with fMinP := 0 })
  else if 1 ≤ pcode ∧ pcode ≤ 9 then
    (true, { s with fMinP := ((pcode : ℚ) + 1) / 10 })
  else
    (false, s)

/-- Embedding of the switch table of `AliCSPIDCuts::SetPMax`: code 0 sets
`fMaxP = 1e6` (no maximum), codes 1..8 set the tabulated maxima, other
codes are rejected. -/
def SetPMax (s : PIDCutsState) (pcode : Int) : Bool × PIDCutsState :=
  if pcode = 0 then (true, { s with fMaxP := 1000000 })
  else if pcode = 1 then (true, { s with fMaxP := 0.3 })
  else if pcode = 2 then (true, { s with fMaxP := 0.4 })
  else if pcode = 3 then (true, { s with fMaxP := 0.5 })
  else if pcode = 4 then (true, { s with fMaxP := 0.6 })
  else if pcode = 5 then (true, { s with fMaxP := 0.7 })
  else if pcode = 6 then (true, { s with fMaxP := 2.0 })
  else if pcode = 7 then (true, { s with fMaxP := 3.0 })
  else if pcode = 8 then (true, { s with fMaxP := 4.0 })
  else (false, s)

/-- The switch table of `AliCSPIDCuts::SetITSdEdxSigmaCut`: for a supported
code, the enable-bit action (false for the passive code 0, true otherwise)
and the (below, above) nsigma bounds written for the species; `none` for an
unsupported code. -/
def itsdEdxBandTable (dEdxCode : Int) : Option (Bool × ℚ × ℚ) :=
  if dEdxCode = 0 then some (false, -100, 100)
  else if dEdxCode = 1 then some (true, -10, 10)
  else if dEdxCode = 2 then some (true, -6, 7)
  else if dEdxCode = 3 then some (true, -5, 5)
  else if dEdxCode = 4 then some (true, -4, 5)
  else if dEdxCode = 5 then some (true, -3, 5)
  else if dEdxCode = 6 then some (true, -4, 4)
  else if dEdxCode = 7 then some (true, -2.5, 4)
  else if dEdxCode = 8 then some (true, -2, 3.5)
  else none

/-- Embedding of `AliCSPIDCuts::SetITSdEdxSigmaCut`: on a supported code,
set or reset the species bit of `fITSEnabledSpeciesMask` and write the
tabulated bounds, then set the `kITSdEdxSigmaCut` bit of
`fCutsEnabledMask` iff the mask has a set bit; reject unsupported codes
leaving the state unchanged. -/
def SetITSdEdxSigmaCut (s : PIDCutsState) (id : PSpecies) (dEdxCode : Int) :
    Bool × PIDCutsState :=
  match itsdEdxBandTable dEdxCode with
  | none => (false, s)
  | some (en, below, above) =>
    let s1 : PIDCutsState :=
      { s with
        fITSEnabledSpeciesMask := Function.update s.fITSEnabledSpeciesMask id en,
        fITSnSigmaBelow := Function.update s.fITSnSigmaBelow id below,
        fITSnSigmaAbove := Function.update s.fITSnSigmaAbove id above }
    (true,
      { s1 with
        fCutsEnabledMask := Function.update s1.fCutsEnabledMask .kITSdEdxSigmaCut
          (decide (0 < countBits s1.fITSEnabledSpeciesMask)) })

/-- The switch table of `AliCSPIDCuts::SetTPCdEdxSigmaCut`. -/
def tpcdEdxBandTable (dEdxCode : Int) : Option (Bool × ℚ × ℚ) :=
  if dEdxCode = 0 then some (false, -100, 100)
  else if dEdxCode = 1 then some (true, -10, 10)
  else if dEdxCode = 2 then some (true, -6, 7)
  else if dEdxCode = 3 then some (true, -5, 5)
  else if dEdxCode = 4 then some (true, -4, 5)
  else if dEdxCode = 5 then some (true, -4, 4)
  else if dEdxCode = 6 then some (true, -3, 4)
  else if dEdxCode = 7 then some (true, -3, 3)
  else if dEdxCode = 8 then some (true, -3, 5)
  else if dEdxCode = 9 then some (true, -2, 3)
  else none

/-- Embedding of `AliCSPIDCuts::SetTPCdEdxSigmaCut`, same shape as the ITS
setter over the TPC table, mask and bounds. -/
def SetTPCdEdxSigmaCut (s : PIDCutsState) (id : PSpecies) (dEdxCode : Int) :
    Bool × PIDCutsState :=
  match tpcdEdxBandTable dEdxCode with
  | none => (false, s)
  | some (en, below, above) =>
    let s1 : PIDCutsState :=
      { s with
        fTPCEnabledSpeciesMask := Function.update s.fTPCEnabledSpeciesMask id en,
        fTPCnSigmaBelow := Function.update s.fTPCnSigmaBelow id below,
        fTPCnSigmaAbove := Function.update s.fTPCnSigmaAbove id above }
    (true,
      { s1 with
        fCutsEnabledMask := Function.update s1.fCutsEnabledMask .kTPCdEdxSigmaCut
          (decide (0 < countBits s1.fTPCEnabledSpeciesMask)) })

/-- The switch table of `AliCSPIDCuts::SetTOFSigmaCut`. -/
def tofBandTable (tofcode : Int) : Option (Bool × ℚ × ℚ) :=
  if tofcode = 0 then some (false, -100, 100)
  else if tofcode = 1 then some (true, -7, 7)
  else if tofcode = 2 then some (true, -5, 5)
  else if tofcode = 3 then some (true, -3, 5)
  else if tofcode = 4 then some (true, -2, 3)
  else if tofcode = 5 then some (true, -3, 3)
  else none

/-- Embedding of `AliCSPIDCuts::SetTOFSigmaCut`, same shape as the ITS
setter over the TOF table, mask and bounds. -/
def SetTOFSigmaCut (s : PIDCutsState) (id : PSpecies) (tofcode : Int) :
    Bool × PIDCutsState :=
  match tofBandTable tofcode with
  | none => (false, s)
  | some (en, below, above) =>
    let s1 : PIDCutsState :=
      { s with
        fTOFEnabledSpeciesMask := Function.update s.fTOFEnabledSpeciesMask id en,
        fTOFnSigmaBelow := Function.update s.fTOFnSigmaBelow id below,
        fTOFnSigmaAbove := Function.update s.fTOFnSigmaAbove id above }
    (true,
      { s1 with
        fCutsEnabledMask := Function.update s1.fCutsEnabledMask .kTOFSigmaCut
          (decide (0 < countBits s1.fTOFEnabledSpeciesMask)) })

/-- The common tail of `AliCSPIDCuts::SetTPCTOFCut`: set the
`kTPCTOF2DSigmaCut` bit of `fCutsEnabledMask` iff the 2D species mask has
a set bit, and return `kTRUE`. -/
def tpctofFinish (s : PIDCutsState) : Bool × PIDCutsState :=
  (true,
    { s with
      fCutsEnabledMask := Function.update s.fCutsEnabledMask .kTPCTOF2DSigmaCut
        (decide (0 < countBits s.fTPCTOF2DEnabledSpeciesMask)) })

/-- Embedding of `AliCSPIDCuts::SetTPCTOFCut`: codes 0/1 reset the 2D
species mask and set `fTOFRequired` to false/true; codes 2/3 set the 2D
species mask to the intersection of the TPC and TOF enable masks and set
`fTOFRequired` to false/true; other codes are rejected without touching
the state. -/
def SetTPCTOFCut (s : PIDCutsState) (tpctofcode : Int) : Bool × PIDCutsState :=
  if tpctofcode = 0 then
    tpctofFinish { s with
      fTPCTOF2DEnabledSpeciesMask := fun _ => false,
      fTOFRequired := false }
  else if tpctofcode = 1 then
    tpctofFinish { s with
      fTPCTOF2DEnabledSpeciesMask := fun _ => false,
      fTOFRequired := true }
  else if tpctofcode = 2 then
    tpctofFinish { s with
      fTPCTOF2DEnabledSpeciesMask :=
        fun sp => s.fTPCEnabledSpeciesMask sp && s.fTOFEnabledSpeciesMask sp,
      fTOFRequired := false }
  else if tpctofcode = 3 then
    tpctofFinish { s with
      fTPCTOF2DEnabledSpeciesMask :=
        fun sp => s.fTPCEnabledSpeciesMask sp && s.fTOFEnabledSpeciesMask sp,
      fTOFRequired := true }
  else
    (false, s)

/-- All cut parameters in declaration order. -/
def cutsParametersList : List CutsParametersIds :=
  [.kPMinCutParam, .kPMaxCutParam,
   .kITSdEdxSigmaCutParam_e, .kITSdEdxSigmaCutParam_mu, .kITSdEdxSigmaCutParam_pi,
   .kITSdEdxSigmaCutParam_k, .kITSdEdxSigmaCutParam_p,
   .kTPCdEdxSigmaCutParam_e, .kTPCdEdxSigmaCutParam_mu, .kTPCdEdxSigmaCutParam_pi,
   .kTPCdEdxSigmaCutParam_k, .kTPCdEdxSigmaCutParam_p,
   .kTOFSigmaCutParam_e, .kTOFSigmaCutParam_mu, .kTOFSigmaCutParam_pi,
   .kTOFSigmaCutParam_k, .kTOFSigmaCutParam_p,
   .kTPCTOFCutParam]

/-- Modelled from the spec: the numeric values of the `cutsParametersIds`
enumeration are declared in `AliCSPIDCuts.h`, which is not among the
sources.  The spec describes a flat parameter-ID space covering the
momentum min/max codes, five per-species ITS, TPC and TOF preset codes,
and the combined TPC+TOF mode code; they are numbered here 0..17 in the
order of the `SetCutAndParams` dispatch, and any other ID is malformed
(`none`), reaching the rejecting default branch. -/
def cutsParametersIds (paramID : Int) : Option CutsParametersIds :=
  if 0 ≤ paramID ∧ paramID < 18 then
    (cutsParametersList.get? paramID.toNat)
  else
    none

/-- Modelled from the spec: `UpdateCutsString` is a member of the cuts base
class, which is not among the sources.  Per the spec it regenerates, on
every successful parameter update, a canonical descriptor summarizing the
active configuration; it is modelled as the ordered list of the stored
parameter values. -/
def UpdateCutsString (s : PIDCutsState) : PIDCutsState :=
  { s with fCutsString := cutsParametersList.map s.fParameters }

/-- The per-case body of `AliCSPIDCuts::SetCutAndParams`: run the
underlying setter; on success store the value in `fParameters` for the
parameter, regenerate the cuts string and return `kTRUE`; on failure
return `kFALSE` with the state the setter left. -/
def applyAndStore (s : PIDCutsState) (p : CutsParametersIds) (value : Int)
    (setter : PIDCutsState → Bool × PIDCutsState) : Bool × PIDCutsState :=
  let r := setter s
  if r.1 then
    (true, UpdateCutsString
      { r.2 with fParameters := Function.update r.2.fParameters p value })
  else
    (false, r.2)

/-- Embedding of `AliCSPIDCuts::SetCutAndParams`: dispatch on the cut
parameter ID to the underlying setter, storing the value and regenerating
the cuts string on success; a malformed ID reaches the default branch and
is rejected. -/
def SetCutAndParams (s : PIDCutsState) (paramID : Int) (value : Int) :
    Bool × PIDCutsState :=
  match cutsParametersIds paramID with
  | none => (false, s)
  | some .kPMinCutParam =>
    applyAndStore s .kPMinCutParam value (fun t => SetPMin t value)
  | some .kPMaxCutParam =>
    applyAndStore s .kPMaxCutParam value (fun t => SetPMax t value)
  | some .kITSdEdxSigmaCutParam_e =>
    applyAndStore s .kITSdEdxSigmaCutParam_e value
      (fun t => SetITSdEdxSigmaCut t .kElectron value)
  | some .kITSdEdxSigmaCutParam_mu =>
    applyAndStore s .kITSdEdxSigmaCutParam_mu value
      (fun t => SetITSdEdxSigmaCut t .kMuon value)
  | some .kITSdEdxSigmaCutParam_pi =>
    applyAndStore s .kITSdEdxSigmaCutParam_pi value
      (fun t => SetITSdEdxSigmaCut t .kPion value)
  | some .kITSdEdxSigmaCutParam_k =>
    applyAndStore s .kITSdEdxSigmaCutParam_k value
      (fun t => SetITSdEdxSigmaCut t .kKaon value)
  | some .kITSdEdxSigmaCutParam_p =>
    applyAndStore s .kITSdEdxSigmaCutParam_p value
      (fun t => SetITSdEdxSigmaCut t .kProton value)
  | some .kTPCdEdxSigmaCutParam_e =>
    applyAndStore s .kTPCdEdxSigmaCutParam_e value
      (fun t => SetTPCdEdxSigmaCut t .kElectron value)
  | some .kTPCdEdxSigmaCutParam_mu =>
    applyAndStore s .kTPCdEdxSigmaCutParam_mu value
      (fun t => SetTPCdEdxSigmaCut t .kMuon value)
  | some .kTPCdEdxSigmaCutParam_pi =>
    applyAndStore s .kTPCdEdxSigmaCutParam_pi value
      (fun t => SetTPCdEdxSigmaCut t .kPion value)
  | some .kTPCdEdxSigmaCutParam_k =>
    applyAndStore s .kTPCdEdxSigmaCutParam_k value
      (fun t => SetTPCdEdxSigmaCut t .kKaon value)
  | some .kTPCdEdxSigmaCutParam_p =>
    applyAndStore s .kTPCdEdxSigmaCutParam_p value
      (fun t => SetTPCdEdxSigmaCut t .kProton value)
  | some .kTOFSigmaCutParam_e =>
    applyAndStore s .kTOFSigmaCutParam_e value
      (fun t => SetTOFSigmaCut t .kElectron value)
  | some .kTOFSigmaCutParam_mu =>
    applyAndStore s .kTOFSigmaCutParam_mu value
      (fun t => SetTOFSigmaCut t .kMuon value)
  | some .kTOFSigmaCutParam_pi =>
    applyAndStore s .kTOFSigmaCutParam_pi value
      (fun t => SetTOFSigmaCut t .kPion value)
  | some .kTOFSigmaCutParam_k =>
    applyAndStore s .kTOFSigmaCutParam_k value
      (fun t => SetTOFSigmaCut t .kKaon value)
  | some .kTOFSigmaCutParam_p =>
    applyAndStore s .kTOFSigmaCutParam_p value
      (fun t => SetTOFSigmaCut t .kProton value)
  | some .kTPCTOFCutParam =>
    applyAndStore s .kTPCTOFCutParam value (fun t => SetTPCTOFCut t value)

/-! PDG particle codes from `TPDGCode.h`, as matched by
`AliCSPIDCuts::GetTrueSpecies(AliVParticle*)`. -/

def kPositron : Int := -11
def kElectron : Int := 11
def kMuonPlus : Int := -13
def kMuonMinus : Int := 13
def kPiPlus : Int := 211
def kPiMinus : Int := -211
def kKPlus : Int := 321
def kKMinus : Int := -321
def kProton : Int := 2212
def kProtonBar : Int := -2212

/-- Embedding of `AliCSPIDCuts::GetTrueSpecies(AliVParticle*)`: the switch
on the particle PDG code mapping the five charged species (and their
antiparticles) to their `AliPID` identifier and everything else to
`kUnknown`. -/
def GetTrueSpecies (pdgCode : Int) : PSpecies :=
  if pdgCode = kPositron ∨ pdgCode = kElectron then .kElectron
  else if pdgCode = kProton ∨ pdgCode = kProtonBar then .kProton
  else if pdgCode = kMuonPlus ∨ pdgCode = kMuonMinus then .kMuon
  else if pdgCode = kPiPlus ∨ pdgCode = kPiMinus then .kPion
  else if pdgCode = kKPlus ∨ pdgCode = kKMinus then .kKaon
  else .kUnknown

/-- A Monte-Carlo truth particle as read by
`AliCSPIDCuts::IsTrueTrackAccepted(Int_t)`: its momentum `P()` and its
PDG code `PdgCode()`. -/
structure MCParticle where
  momentum : ℚ
  pdgCode : Int
deriving DecidableEq, Repr

/-- The momentum-window rejection test used identically in both branches of
`AliCSPIDCuts::IsTrueTrackAccepted(Int_t)`: `p < fMinP || fMaxP < p`. -/
def momentumGateReject (s : PIDCutsState) (p : ℚ) : Bool :=
  decide (p < s.fMinP ∨ s.fMaxP < p)

/-- The four-fold disjunction over `fCutsEnabledMask` tested identically in
both branches of `AliCSPIDCuts::IsTrueTrackAccepted(Int_t)`. -/
def anyPIDCutEnabled (s : PIDCutsState) : Bool :=
  s.fCutsEnabledMask .kITSdEdxSigmaCut ||
  s.fCutsEnabledMask .kTPCdEdxSigmaCut ||
  s.fCutsEnabledMask .kTOFSigmaCut ||
  s.fCutsEnabledMask .kTPCTOF2DSigmaCut

/-- Embedding of `AliCSPIDCuts::IsTrueTrackAccepted(Int_t)`.  The two data
sources — `GetMCEventHandler()->MCEvent()->GetTrack(itrk)` in the ESD
branch and `fgMCArray->At(itrk)` in the AOD branch — are passed as lookup
functions returning the associated particle, or `none` for a null
pointer.  Each branch rejects a null particle, rejects a momentum outside
the window, and, when any PID cut category is enabled, rejects a particle
whose true species differs from the target. -/
def IsTrueTrackAcceptedIdx (s : PIDCutsState) (fgIsESD : Bool)
    (mcEventTrack : Int → Option MCParticle) (mcArrayAt : Int → Option MCParticle)
    (itrk : Int) : Bool :=
  if fgIsESD then
    match mcEventTrack itrk with
    | none => false
    | some particle =>
      if momentumGateReject s particle.momentum then false
      else if anyPIDCutEnabled s then
        if GetTrueSpecies particle.pdgCode ≠ s.fTargetSpecies then false
        else true
      else true
  else
    match mcArrayAt itrk with
    | none => false
    | some particle =>
      if momentumGateReject s particle.momentum then false
      else if anyPIDCutEnabled s then
        if GetTrueSpecies particle.pdgCode ≠ s.fTargetSpecies then false
        else true
      else true

/-- Embedding of `AliCSPIDCuts::IsTrueTrackAccepted(AliVTrack*)`: a track
whose label is negative (a ghost track) is rejected; otherwise the label
is passed on to `IsTrueTrackAccepted(Int_t)`. -/
def IsTrueTrackAccepted (s : PIDCutsState) (fgIsESD : Bool)
    (mcEventTrack : Int → Option MCParticle) (mcArrayAt : Int → Option MCParticle)
    (label : Int) : Bool :=
  if label < 0 then false
  else IsTrueTrackAcceptedIdx s fgIsESD mcEventTrack mcArrayAt label

/-- Modelled from the spec: the per-detector 1-D nsigma test of the
DetectorCutEvaluator.  The body of `accept()`, called from
`AliCSPIDCuts::IsTrackAccepted`, is declared in `AliCSPIDCuts.h`, which is
not among the sources.  Per the spec, for a detector band table given by
an enable mask and below/above bounds: the target species passes iff its
nsigma lies strictly inside the open band; an enabled non-target species
passes iff its nsigma lies strictly outside the closed band (a separation
band); a species with a disabled band passes vacuously. -/
def oneDimensionalTest (target : PSpecies) (enabledMask : PSpecies → Bool)
    (below above : PSpecies → ℚ) (nSigma : PSpecies → ℚ) (sp : PSpecies) : Bool :=
  if enabledMask sp then
    if sp = target then
      decide (below sp < nSigma sp ∧ nSigma sp < above sp)
    else
      decide (nSigma sp < below sp ∨ above sp < nSigma sp)
  else
    true

/-- Supported preset-code range of each cut parameter, read off the
switches of the corresponding setters. -/
def supportedValue (p : CutsParametersIds) (value : Int) : Bool :=
  match p with
  | .kPMinCutParam => decide (0 ≤ value ∧ value ≤ 9)
  | .kPMaxCutParam => decide (0 ≤ value ∧ value ≤ 8)
  | .kITSdEdxSigmaCutParam_e => decide (0 ≤ value ∧ value ≤ 8)
  | .kITSdEdxSigmaCutParam_mu => decide (0 ≤ value ∧ value ≤ 8)
  | .kITSdEdxSigmaCutParam_pi => decide (0 ≤ value ∧ value ≤ 8)
  | .kITSdEdxSigmaCutParam_k => decide (0 ≤ value ∧ value ≤ 8)
  | .kITSdEdxSigmaCutParam_p => decide (0 ≤ value ∧ value ≤ 8)
  | .kTPCdEdxSigmaCutParam_e => decide (0 ≤ value ∧ value ≤ 9)
  | .kTPCdEdxSigmaCutParam_mu => decide (0 ≤ value ∧ value ≤ 9)
  | .kTPCdEdxSigmaCutParam_pi => decide (0 ≤ value ∧ value ≤ 9)
  | .kTPCdEdxSigmaCutParam_k => decide (0 ≤ value ∧ value ≤ 9)
  | .kTPCdEdxSigmaCutParam_p => decide (0 ≤ value ∧ value ≤ 9)
  | .kTOFSigmaCutParam_e => decide (0 ≤ value ∧ value ≤ 5)
  | .kTOFSigmaCutParam_mu => decide (0 ≤ value ∧ value ≤ 5)
  | .kTOFSigmaCutParam_pi => decide (0 ≤ value ∧ value ≤ 5)
  | .kTOFSigmaCutParam_k => decide (0 ≤ value ∧ value ≤ 5)
  | .kTOFSigmaCutParam_p => decide (0 ≤ value ∧ value ≤ 5)
  | .kTPCTOFCutParam => decide (0 ≤ value ∧ value ≤ 3)

/-! Helper lemmas shared by the claim theorems. -/

lemma mem_speciesList (sp : PSpecies) : sp ∈ speciesList := by
  cases sp <;> simp [speciesList]

lemma countBits_pos_iff (m : PSpecies → Bool) :
    0 < countBits m ↔ ∃ sp, m sp = true := by
  unfold countBits
  rw [List.length_pos, Ne, List.filter_eq_nil_iff]
  push_neg
  constructor
  · rintro ⟨sp, _, h⟩; exact ⟨sp, h⟩
  · rintro ⟨sp, h⟩; exact ⟨sp, mem_speciesList sp, h⟩

lemma countBits_eq_zero_iff (m : PSpecies → Bool) :
    countBits m = 0 ↔ ∀ sp, m sp = false := by
  unfold countBits
  rw [List.length_eq_zero, List.filter_eq_nil_iff]
  constructor
  · intro h sp
    have := h sp (mem_speciesList sp)
    simpa using this
  · intro h sp _
    simp [h sp]

lemma momentumGateReject_false_iff (s : PIDCutsState) (p : ℚ) :
    momentumGateReject s p = false ↔ (s.fMinP ≤ p ∧ p ≤ s.fMaxP) := by
  unfold momentumGateReject
  simp [not_or, not_lt]

/-- Claim C5: the momentum gate accepts with inclusive boundaries — the
rejection test `p < fMinP || fMaxP < p` of `IsTrueTrackAccepted(Int_t)` is
false exactly when `fMinP ≤ p ∧ p ≤ fMaxP`, so `p = fMinP` and `p = fMaxP`
are accepted and any `p` below `fMinP` or above `fMaxP` is rejected. -/
theorem momentumGate_inclusive_bounds (s : PIDCutsState) (p : ℚ) :
    momentumGateReject s p = false ↔ (s.fMinP ≤ p ∧ p ≤ s.fMaxP) :=
  momentumGateReject_false_iff s p

/-- Claim C8: `GetTrueSpecies` is a pure total function of the PDG code:
repeated application to the same code yields the same species;
electron/positron map to the electron species, proton/antiproton to
proton, muon± to muon, pion± to pion, kaon± to kaon, and every PDG code
outside those ten maps to `kUnknown`. -/
theorem getTrueSpecies_classification (c : Int) :
    GetTrueSpecies c = GetTrueSpecies c ∧
    ((c = kPositron ∨ c = kElectron) → GetTrueSpecies c = PSpecies.kElectron) ∧
    ((c = kProton ∨ c = kProtonBar) → GetTrueSpecies c = PSpecies.kProton) ∧
    ((c = kMuonPlus ∨ c = kMuonMinus) → GetTrueSpecies c = PSpecies.kMuon) ∧
    ((c = kPiPlus ∨ c = kPiMinus) → GetTrueSpecies c = PSpecies.kPion) ∧
    ((c = kKPlus ∨ c = kKMinus) → GetTrueSpecies c = PSpecies.kKaon) ∧
    (c ≠ kPositron → c ≠ kElectron → c ≠ kProton → c ≠ kProtonBar →
     c ≠ kMuonPlus → c ≠ kMuonMinus → c ≠ kPiPlus → c ≠ kPiMinus →
     c ≠ kKPlus → c ≠ kKMinus → GetTrueSpecies c = PSpecies.kUnknown) := by
  refine ⟨rfl, ?_, ?_, ?_, ?_, ?_, ?_⟩
  · rintro (rfl | rfl) <;> decide
  · rintro (rfl | rfl) <;> decide
  · rintro (rfl | rfl) <;> decide
  · rintro (rfl | rfl) <;> decide
  · rintro (rfl | rfl) <;> decide
  · intro h1 h2 h3 h4 h5 h6 h7 h8 h9 h10
    simp [GetTrueSpecies, h1, h2, h3, h4, h5, h6, h7, h8, h9, h10]

/-- Witness for claim C8 at concrete PDG codes: 11 (an electron) and 12345
(no listed mapping). -/
theorem getTrueSpecies_classification_witness :
    GetTrueSpecies 11 = PSpecies.kElectron ∧
    GetTrueSpecies 12345 = PSpecies.kUnknown :=
  ⟨(getTrueSpecies_classification 11).2.1 (Or.inr rfl),
   (getTrueSpecies_classification 12345).2.2.2.2.2.2 (by decide) (by decide)
     (by decide) (by decide) (by decide) (by decide) (by decide) (by decide)
     (by decide) (by decide)⟩

/-- Claim C1: for the 1-D detector test with the target species enabled,
passing is equivalent to the nsigma lying strictly inside the open band
(so a boundary value fails), and for an enabled non-target species passing
is equivalent to the nsigma lying strictly outside the closed band (so any
value inside the closed band, boundaries included, fails). -/
theorem oneDimensionalTest_band_semantics (target : PSpecies)
    (em : PSpecies → Bool) (below above nS : PSpecies → ℚ) :
    (em target = true →
      ((oneDimensionalTest target em below above nS target = true ↔
         (below target < nS target ∧ nS target < above target)) ∧
       (nS target = below target ∨ nS target = above target →
         oneDimensionalTest target em below above nS target = false))) ∧
    (∀ sp, sp ≠ target → em sp = true →
      ((oneDimensionalTest target em below above nS sp = true ↔
         (nS sp < below sp ∨ above sp < nS sp)) ∧
       (below sp ≤ nS sp → nS sp ≤ above sp →
         oneDimensionalTest target em below above nS sp = false))) := by
  constructor
  · intro hen
    unfold oneDimensionalTest
    rw [if_pos hen, if_pos rfl]
    constructor
    · exact decide_eq_true_iff
    · rintro (hb | ha)
      · simp [hb]
      · simp [ha]
  · intro sp hne hen
    unfold oneDimensionalTest
    rw [if_pos hen, if_neg hne]
    constructor
    · exact decide_eq_true_iff
    · intro h1 h2
      simp [not_lt, h1, h2]

/-- Witness for claim C1: with a (-3, 3) pion band and the pion as target,
nsigma 0 passes, the boundary value 3 fails, and a kaon separation band
containing the kaon nsigma 0 fails. -/
theorem oneDimensionalTest_band_semantics_witness :
    oneDimensionalTest .kPion (fun _ => true) (fun _ => -3) (fun _ => 3)
      (fun _ => 0) .kPion = true ∧
    oneDimensionalTest .kPion (fun _ => true) (fun _ => -3) (fun _ => 3)
      (fun _ => 3) .kPion = false ∧
    oneDimensionalTest .kPion (fun _ => true) (fun _ => -3) (fun _ => 3)
      (fun _ => 0) .kKaon = false :=
  ⟨((oneDimensionalTest_band_semantics .kPion (fun _ => true) (fun _ => -3)
      (fun _ => 3) (fun _ => 0)).1 rfl).1.mpr (by norm_num),
   ((oneDimensionalTest_band_semantics .kPion (fun _ => true) (fun _ => -3)
      (fun _ => 3) (fun _ => 3)).1 rfl).2 (Or.inr rfl),
   ((oneDimensionalTest_band_semantics .kPion (fun _ => true) (fun _ => -3)
      (fun _ => 3) (fun _ => 0)).2 .kKaon (by decide) rfl).2 (by norm_num)
     (by norm_num)⟩

/-- Claim C10: the ESD branch (`fgIsESD` true) and the AOD branch
(`fgIsESD` false) of `IsTrueTrackAccepted(Int_t)` compute the same
acceptance decision whenever the two data sources associate particles of
equal null-ness, equal momentum and equal PDG code to the track index. -/
theorem isTrueTrackAccepted_branches_agree (s : PIDCutsState)
    (fE fA : Int → Option MCParticle) (itrk : Int)
    (hnone : fE itrk = none ↔ fA itrk = none)
    (hsome : ∀ pe pa, fE itrk = some pe → fA itrk = some pa →
      pe.momentum = pa.momentum ∧ pe.pdgCode = pa.pdgCode) :
    IsTrueTrackAcceptedIdx s true fE fA itrk =
      IsTrueTrackAcceptedIdx s false fE fA itrk := by
  unfold IsTrueTrackAcceptedIdx
  cases hE : fE itrk with
  | none =>
    rw [hnone.mp hE]
    simp
  | some pe =>
    cases hA : fA itrk with
    | none =>
      rw [hnone.mpr hA] at hE
      exact absurd hE (by simp)
    | some pa =>
      obtain ⟨hp, hc⟩ := hsome pe pa hE hA
      simp [hp, hc]

/-- Witness for claim C10 on a concrete state, lookup functions and
index. -/
theorem isTrueTrackAccepted_branches_agree_witness :
    IsTrueTrackAcceptedIdx (constructedState .kPion) true
      (fun _ => some ⟨1, 211⟩) (fun _ => some ⟨1, 211⟩) 0 =
    IsTrueTrackAcceptedIdx (constructedState .kPion) false
      (fun _ => some ⟨1, 211⟩) (fun _ => some ⟨1, 211⟩) 0 :=
  isTrueTrackAccepted_branches_agree (constructedState .kPion)
    (fun _ => some ⟨1, 211⟩) (fun _ => some ⟨1, 211⟩) 0
    (by simp)
    (fun pe pa he ha => by
      simp only [Option.some.injEq] at he ha
      rw [← he, ← ha]
      exact ⟨rfl, rfl⟩)

/-- Claim C7: `IsTrueTrackAccepted(AliVTrack*)` rejects a track without a
valid truth link (negative label); otherwise, for the particle associated
with the label by the active data source, acceptance holds iff the
particle momentum satisfies the momentum gate and, whenever at least one
of the four cut categories is enabled, the classified true species equals
the configured target species. -/
theorem isTrueTrackAccepted_truth_semantics (s : PIDCutsState) (esd : Bool)
    (fE fA : Int → Option MCParticle) (label : Int) :
    (label < 0 → IsTrueTrackAccepted s esd fE fA label = false) ∧
    (0 ≤ label → ∀ par, (if esd then fE label else fA label) = some par →
      (IsTrueTrackAccepted s esd fE fA label = true ↔
        (s.fMinP ≤ par.momentum ∧ par.momentum ≤ s.fMaxP ∧
         (anyPIDCutEnabled s = true →
           GetTrueSpecies par.pdgCode = s.fTargetSpecies)))) := by
  constructor
  · intro h
    unfold IsTrueTrackAccepted
    rw [if_pos h]
  · intro h par hpar
    unfold IsTrueTrackAccepted
    rw [if_neg (not_lt.mpr h)]
    unfold IsTrueTrackAcceptedIdx
    cases esd with
    | true =>
      simp only [if_true] at hpar ⊢
      rw [hpar]
      by_cases hg : momentumGateReject s par.momentum
      · have := (momentumGateReject_false_iff s par.momentum)
        simp only [hg, if_true]
        constructor
        · intro hfalse; exact absurd hfalse (by simp)
        · rintro ⟨h1, h2, _⟩
          exact absurd (this.mpr ⟨h1, h2⟩) (by simp [hg])
      · rw [Bool.not_eq_true] at hg
        obtain ⟨h1, h2⟩ := (momentumGateReject_false_iff s par.momentum).mp hg
        simp only [hg, Bool.false_eq_true, if_false]
        by_cases he : anyPIDCutEnabled s
        · rw [if_pos he]
          by_cases hsp : GetTrueSpecies par.pdgCode = s.fTargetSpecies
          · simp [hsp, h1, h2, he]
          · simp [hsp, h1, h2, he]
        · rw [Bool.not_eq_true] at he
          simp [he, h1, h2]
    | false =>
      simp only [Bool.false_eq_true, if_false] at hpar ⊢
      rw [hpar]
      by_cases hg : momentumGateReject s par.momentum
      · have := (momentumGateReject_false_iff s par.momentum)
        simp only [hg, if_true]
        constructor
        · intro hfalse; exact absurd hfalse (by simp)
        · rintro ⟨h1, h2, _⟩
          exact absurd (this.mpr ⟨h1, h2⟩) (by simp [hg])
      · rw [Bool.not_eq_true] at hg
        obtain ⟨h1, h2⟩ := (momentumGateReject_false_iff s par.momentum).mp hg
        simp only [hg, Bool.false_eq_true, if_false]
        by_cases he : anyPIDCutEnabled s
        · rw [if_pos he]
          by_cases hsp : GetTrueSpecies par.pdgCode = s.fTargetSpecies
          · simp [hsp, h1, h2, he]
          · simp [hsp, h1, h2, he]
        · rw [Bool.not_eq_true] at he
          simp [he, h1, h2]

/-- Witness for claim C7: a ghost track (label -1) is rejected, and for
label 0 associated with a pion of momentum 1 the acceptance follows from
the characterization on a freshly constructed pion cut. -/
theorem isTrueTrackAccepted_truth_semantics_witness :
    IsTrueTrackAccepted (constructedState .kPion) true
      (fun _ => some ⟨1, 211⟩) (fun _ => some ⟨1, 211⟩) (-1) = false ∧
    IsTrueTrackAccepted (constructedState .kPion) true
      (fun _ => some ⟨1, 211⟩) (fun _ => some ⟨1, 211⟩) 0 = true :=
  ⟨(isTrueTrackAccepted_truth_semantics (constructedState .kPion) true
      (fun _ => some ⟨1, 211⟩) (fun _ => some ⟨1, 211⟩) (-1)).1 (by decide),
   ((isTrueTrackAccepted_truth_semantics (constructedState .kPion) true
      (fun _ => some ⟨1, 211⟩) (fun _ => some ⟨1, 211⟩) 0).2 (by decide)
      ⟨1, 211⟩ rfl).mpr
     ⟨by norm_num [constructedState], by norm_num [constructedState],
      fun h => absurd h (by decide)⟩⟩

/-- Counterexample to claim C6 as stated: a freshly constructed cut has
`fMaxP = 9999`, not +∞, so the momentum 10000 ≥ 0 is rejected before any
configuration call; and `SetPMax(0)` sets `fMaxP = 1e6`, so the finite
momentum 2·10^6 is rejected afterwards. -/
theorem defaultWindow_not_unbounded :
    (0 ≤ (10000 : ℚ) ∧
      momentumGateReject (constructedState .kPion) 10000 = true) ∧
    ((SetPMax (constructedState .kPion) 0).1 = true ∧
      momentumGateReject (SetPMax (constructedState .kPion) 0).2 2000000 = true) := by
  refine ⟨⟨by norm_num, ?_⟩, ⟨rfl, ?_⟩⟩
  · unfold momentumGateReject constructedState
    norm_num
  · unfold SetPMax momentumGateReject constructedState
    norm_num

/-- Claim C6 (amended): before any configuration call the momentum window
is [0, 9999] — a freshly constructed cut's gate accepts p iff
0 ≤ p ≤ 9999; and `SetPMax(0)` configures the sentinel maximum 10^6 (the
code's rendering of "no maximum"), after which the gate accepts p iff
fMinP ≤ p ≤ 10^6. -/
theorem defaultWindow_amended (target : PSpecies) (s : PIDCutsState) (p : ℚ) :
    (momentumGateReject (constructedState target) p = false ↔
      (0 ≤ p ∧ p ≤ 9999)) ∧
    SetPMax s 0 = (true, { s with fMaxP := 1000000 }) ∧
    (momentumGateReject (SetPMax s 0).2 p = false ↔
      (s.fMinP ≤ p ∧ p ≤ 1000000)) := by
  refine ⟨?_, rfl, ?_⟩
  · rw [momentumGateReject_false_iff]
    unfold constructedState
    norm_num
  · rw [momentumGateReject_false_iff]
    unfold SetPMax
    norm_num

/-- Claim C4: after `SetTPCTOFCut(code)` succeeds, `fTOFRequired` holds iff
the code is 1 or 3; the TPC+TOF 2D enabled-species mask is the
intersection of the TPC and TOF enable masks at call time for codes 2 and
3 and empty for codes 0 and 1; the combined-2D cut-enabled bit is set iff
that mask is non-empty; and any code outside 0..3 is rejected with the
state unchanged. -/
theorem setTPCTOFCut_modes (s : PIDCutsState) (code : Int) :
    (code = 0 ∨ code = 1 ∨ code = 2 ∨ code = 3 →
      ((SetTPCTOFCut s code).1 = true ∧
       ((SetTPCTOFCut s code).2.fTOFRequired = true ↔ (code = 1 ∨ code = 3)) ∧
       (∀ sp, (SetTPCTOFCut s code).2.fTPCTOF2DEnabledSpeciesMask sp =
         (if code = 2 ∨ code = 3 then
            s.fTPCEnabledSpeciesMask sp && s.fTOFEnabledSpeciesMask sp
          else false)) ∧
       ((SetTPCTOFCut s code).2.fCutsEnabledMask .kTPCTOF2DSigmaCut = true ↔
         ∃ sp, (SetTPCTOFCut s code).2.fTPCTOF2DEnabledSpeciesMask sp = true))) ∧
    (¬(code = 0 ∨ code = 1 ∨ code = 2 ∨ code = 3) →
      SetTPCTOFCut s code = (false, s)) := by
  constructor
  · rintro (rfl | rfl | rfl | rfl) <;>
      refine ⟨rfl, by norm_num [SetTPCTOFCut, tpctofFinish], fun sp => by norm_num [SetTPCTOFCut, tpctofFinish], ?_⟩ <;>
      simp only [SetTPCTOFCut, tpctofFinish] <;>
      norm_num [Function.update_same, countBits_pos_iff, decide_eq_true_iff]
  · intro h
    push_neg at h
    obtain ⟨h0, h1, h2, h3⟩ := h
    unfold SetTPCTOFCut
    rw [if_neg h0, if_neg h1, if_neg h2, if_neg h3]

/-- Witness for claim C4: on a fresh pion cut, code 1 sets the
TOF-required flag, and code 7 is rejected leaving the state unchanged. -/
theorem setTPCTOFCut_modes_witness :
    (SetTPCTOFCut (constructedState .kPion) 1).2.fTOFRequired = true ∧
    SetTPCTOFCut (constructedState .kPion) 7 = (false, constructedState .kPion) :=
  ⟨((setTPCTOFCut_modes (constructedState .kPion) 1).1
      (Or.inr (Or.inl rfl))).2.1.mpr (Or.inl rfl),
   (setTPCTOFCut_modes (constructedState .kPion) 7).2 (by norm_num)⟩

/-! Helper lemmas about the failure and re-application behaviour of the
individual setters, shared by the claim theorems below. -/

lemma itsdEdxBandTable_none {code : Int} (h : ¬(0 ≤ code ∧ code ≤ 8)) :
    itsdEdxBandTable code = none := by
  unfold itsdEdxBandTable
  repeat rw [if_neg (by omega)]

lemma tpcdEdxBandTable_none {code : Int} (h : ¬(0 ≤ code ∧ code ≤ 9)) :
    tpcdEdxBandTable code = none := by
  unfold tpcdEdxBandTable
  repeat rw [if_neg (by omega)]

lemma tofBandTable_none {code : Int} (h : ¬(0 ≤ code ∧ code ≤ 5)) :
    tofBandTable code = none := by
  unfold tofBandTable
  repeat rw [if_neg (by omega)]

lemma SetPMin_out_of_range (s : PIDCutsState) {v : Int}
    (h : ¬(0 ≤ v ∧ v ≤ 9)) : SetPMin s v = (false, s) := by
  unfold SetPMin
  rw [if_neg (by omega), if_neg (by omega)]

lemma SetPMax_out_of_range (s : PIDCutsState) {v : Int}
    (h : ¬(0 ≤ v ∧ v ≤ 8)) : SetPMax s v = (false, s) := by
  unfold SetPMax
  repeat rw [if_neg (by omega)]

lemma SetITSdEdxSigmaCut_out_of_range (s : PIDCutsState) (id : PSpecies)
    {v : Int} (h : ¬(0 ≤ v ∧ v ≤ 8)) :
    SetITSdEdxSigmaCut s id v = (false, s) := by
  simp [SetITSdEdxSigmaCut, itsdEdxBandTable_none h]

lemma SetTPCdEdxSigmaCut_out_of_range (s : PIDCutsState) (id : PSpecies)
    {v : Int} (h : ¬(0 ≤ v ∧ v ≤ 9)) :
    SetTPCdEdxSigmaCut s id v = (false, s) := by
  simp [SetTPCdEdxSigmaCut, tpcdEdxBandTable_none h]

lemma SetTOFSigmaCut_out_of_range (s : PIDCutsState) (id : PSpecies)
    {v : Int} (h : ¬(0 ≤ v ∧ v ≤ 5)) :
    SetTOFSigmaCut s id v = (false, s) := by
  simp [SetTOFSigmaCut, tofBandTable_none h]

lemma SetTPCTOFCut_out_of_range (s : PIDCutsState) {v : Int}
    (h : ¬(0 ≤ v ∧ v ≤ 3)) : SetTPCTOFCut s v = (false, s) := by
  unfold SetTPCTOFCut
  repeat rw [if_neg (by omega)]

lemma applyAndStore_fail (s : PIDCutsState) (p : CutsParametersIds)
    (value : Int) (setter : PIDCutsState → Bool × PIDCutsState)
    (h : setter s = (false, s)) :
    applyAndStore s p value setter = (false, s) := by
  simp [applyAndStore, h]

lemma SetPMin_fail_eq (s : PIDCutsState) (v : Int)
    (h : (SetPMin s v).1 = false) : (SetPMin s v).2 = s := by
  unfold SetPMin at h ⊢
  split_ifs at h ⊢ ; simp_all

lemma SetPMax_fail_eq (s : PIDCutsState) (v : Int)
    (h : (SetPMax s v).1 = false) : (SetPMax s v).2 = s := by
  unfold SetPMax at h ⊢
  split_ifs at h ⊢ ; simp_all

lemma SetITSdEdxSigmaCut_fail_eq (s : PIDCutsState) (id : PSpecies) (v : Int)
    (h : (SetITSdEdxSigmaCut s id v).1 = false) :
    (SetITSdEdxSigmaCut s id v).2 = s := by
  cases ht : itsdEdxBandTable v with
  | none => simp [SetITSdEdxSigmaCut, ht]
  | some tr =>
    obtain ⟨en, lo, hi⟩ := tr
    simp [SetITSdEdxSigmaCut, ht] at h

lemma SetTPCdEdxSigmaCut_fail_eq (s : PIDCutsState) (id : PSpecies) (v : Int)
    (h : (SetTPCdEdxSigmaCut s id v).1 = false) :
    (SetTPCdEdxSigmaCut s id v).2 = s := by
  cases ht : tpcdEdxBandTable v with
  | none => simp [SetTPCdEdxSigmaCut, ht]
  | some tr =>
    obtain ⟨en, lo, hi⟩ := tr
    simp [SetTPCdEdxSigmaCut, ht] at h

lemma SetTOFSigmaCut_fail_eq (s : PIDCutsState) (id : PSpecies) (v : Int)
    (h : (SetTOFSigmaCut s id v).1 = false) :
    (SetTOFSigmaCut s id v).2 = s := by
  cases ht : tofBandTable v with
  | none => simp [SetTOFSigmaCut, ht]
  | some tr =>
    obtain ⟨en, lo, hi⟩ := tr
    simp [SetTOFSigmaCut, ht] at h

lemma SetTPCTOFCut_fail_eq (s : PIDCutsState) (v : Int)
    (h : (SetTPCTOFCut s v).1 = false) : (SetTPCTOFCut s v).2 = s := by
  unfold SetTPCTOFCut tpctofFinish at h ⊢
  split_ifs at h ⊢ ; simp_all

lemma SetPMin_reapply (s : PIDCutsState) (v : Int)
    (h : (SetPMin s v).1 = true) (P : CutsParametersIds → Int) (cs : List Int) :
    SetPMin { (SetPMin s v).2 with fParameters := P, fCutsString := cs } v =
      (true, { (SetPMin s v).2 with fParameters := P, fCutsString := cs }) := by
  unfold SetPMin at h ⊢
  dsimp only at h ⊢
  split_ifs at h ⊢
  · rfl
  · rfl

lemma SetPMax_reapply (s : PIDCutsState) (v : Int)
    (h : (SetPMax s v).1 = true) (P : CutsParametersIds → Int) (cs : List Int) :
    SetPMax { (SetPMax s v).2 with fParameters := P, fCutsString := cs } v =
      (true, { (SetPMax s v).2 with fParameters := P, fCutsString := cs }) := by
  by_cases h0 : v = 0
  · subst h0; rfl
  by_cases h1 : v = 1
  · subst h1; rfl
  by_cases h2 : v = 2
  · subst h2; rfl
  by_cases h3 : v = 3
  · subst h3; rfl
  by_cases h4 : v = 4
  · subst h4; rfl
  by_cases h5 : v = 5
  · subst h5; rfl
  by_cases h6 : v = 6
  · subst h6; rfl
  by_cases h7 : v = 7
  · subst h7; rfl
  by_cases h8 : v = 8
  · subst h8; rfl
  rw [SetPMax_out_of_range s (by omega)] at h
  exact absurd h (by simp)

lemma SetITSdEdxSigmaCut_reapply (s : PIDCutsState) (id : PSpecies) (v : Int)
    (h : (SetITSdEdxSigmaCut s id v).1 = true)
    (P : CutsParametersIds → Int) (cs : List Int) :
    SetITSdEdxSigmaCut
        { (SetITSdEdxSigmaCut s id v).2 with fParameters := P, fCutsString := cs }
        id v =
      (true,
        { (SetITSdEdxSigmaCut s id v).2 with
            fParameters := P, fCutsString := cs }) := by
  cases ht : itsdEdxBandTable v with
  | none => simp [SetITSdEdxSigmaCut, ht] at h
  | some tr =>
    obtain ⟨en, lo, hi⟩ := tr
    simp [SetITSdEdxSigmaCut, ht, Function.update_idem]

lemma SetTPCdEdxSigmaCut_reapply (s : PIDCutsState) (id : PSpecies) (v : Int)
    (h : (SetTPCdEdxSigmaCut s id v).1 = true)
    (P : CutsParametersIds → Int) (cs : List Int) :
    SetTPCdEdxSigmaCut
        { (SetTPCdEdxSigmaCut s id v).2 with fParameters := P, fCutsString := cs }
        id v =
      (true,
        { (SetTPCdEdxSigmaCut s id v).2 with
            fParameters := P, fCutsString := cs }) := by
  cases ht : tpcdEdxBandTable v with
  | none => simp [SetTPCdEdxSigmaCut, ht] at h
  | some tr =>
    obtain ⟨en, lo, hi⟩ := tr
    simp [SetTPCdEdxSigmaCut, ht, Function.update_idem]

lemma SetTOFSigmaCut_reapply (s : PIDCutsState) (id : PSpecies) (v : Int)
    (h : (SetTOFSigmaCut s id v).1 = true)
    (P : CutsParametersIds → Int) (cs : List Int) :
    SetTOFSigmaCut
        { (SetTOFSigmaCut s id v).2 with fParameters := P, fCutsString := cs }
        id v =
      (true,
        { (SetTOFSigmaCut s id v).2 with
            fParameters := P, fCutsString := cs }) := by
  cases ht : tofBandTable v with
  | none => simp [SetTOFSigmaCut, ht] at h
  | some tr =>
    obtain ⟨en, lo, hi⟩ := tr
    simp [SetTOFSigmaCut, ht, Function.update_idem]

lemma SetTPCTOFCut_reapply (s : PIDCutsState) (v : Int)
    (h : (SetTPCTOFCut s v).1 = true)
    (P : CutsParametersIds → Int) (cs : List Int) :
    SetTPCTOFCut
        { (SetTPCTOFCut s v).2 with fParameters := P, fCutsString := cs } v =
      (true,
        { (SetTPCTOFCut s v).2 with fParameters := P, fCutsString := cs }) := by
  unfold SetTPCTOFCut tpctofFinish at h ⊢
  dsimp only at h ⊢
  split_ifs at h ⊢ <;> simp [Function.update_idem]

lemma applyAndStore_idem (s : PIDCutsState) (p : CutsParametersIds)
    (value : Int) (setter : PIDCutsState → Bool × PIDCutsState)
    (hfailEq : (setter s).1 = false → (setter s).2 = s)
    (hre : (setter s).1 = true → ∀ P cs,
      setter { (setter s).2 with fParameters := P, fCutsString := cs } =
        (true, { (setter s).2 with fParameters := P, fCutsString := cs })) :
    applyAndStore (applyAndStore s p value setter).2 p value setter =
      applyAndStore s p value setter := by
  by_cases hr : (setter s).1 = true
  · have key := hre hr (Function.update (setter s).2.fParameters p value)
      (cutsParametersList.map (Function.update (setter s).2.fParameters p value))
    simp only [applyAndStore, UpdateCutsString, hr, if_true, key,
      Function.update_idem]
  · have hr' : (setter s).1 = false := by simpa using hr
    have he := hfailEq hr'
    simp only [applyAndStore, hr', he, Bool.false_eq_true, if_false]

lemma update_false_countBits_zero (m : PSpecies → Bool) (id : PSpecies)
    (honly : ∀ sp, m sp = true → sp = id) :
    countBits (Function.update m id false) = 0 := by
  rw [countBits_eq_zero_iff]
  intro sp
  by_cases hsp : sp = id
  · subst hsp
    simp
  · rw [Function.update_noteq hsp]
    by_cases hm : m sp = true
    · exact absurd (honly sp hm) hsp
    · simpa using hm

/-- Claim C2: after every successful call to a per-detector band setter the
detector-level enabled bit of `fCutsEnabledMask` is set iff the count of
enabled species in that detector's species mask is positive; and the
passive code 0 clears the species bit, resets the bounds to the sentinel
(-100, 100), and — when the species was the only enabled one — clears the
whole detector-level bit. -/
theorem bandSetter_enable_invariant (s : PIDCutsState) (id : PSpecies)
    (code : Int) :
    ((SetITSdEdxSigmaCut s id code).1 = true →
      ((SetITSdEdxSigmaCut s id code).2.fCutsEnabledMask .kITSdEdxSigmaCut = true ↔
        0 < countBits (SetITSdEdxSigmaCut s id code).2.fITSEnabledSpeciesMask)) ∧
    ((SetTPCdEdxSigmaCut s id code).1 = true →
      ((SetTPCdEdxSigmaCut s id code).2.fCutsEnabledMask .kTPCdEdxSigmaCut = true ↔
        0 < countBits (SetTPCdEdxSigmaCut s id code).2.fTPCEnabledSpeciesMask)) ∧
    ((SetTOFSigmaCut s id code).1 = true →
      ((SetTOFSigmaCut s id code).2.fCutsEnabledMask .kTOFSigmaCut = true ↔
        0 < countBits (SetTOFSigmaCut s id code).2.fTOFEnabledSpeciesMask)) ∧
    ((SetITSdEdxSigmaCut s id 0).1 = true ∧
     (SetITSdEdxSigmaCut s id 0).2.fITSEnabledSpeciesMask id = false ∧
     (SetITSdEdxSigmaCut s id 0).2.fITSnSigmaBelow id = -100 ∧
     (SetITSdEdxSigmaCut s id 0).2.fITSnSigmaAbove id = 100 ∧
     ((∀ sp, s.fITSEnabledSpeciesMask sp = true → sp = id) →
       (SetITSdEdxSigmaCut s id 0).2.fCutsEnabledMask .kITSdEdxSigmaCut = false)) ∧
    ((SetTPCdEdxSigmaCut s id 0).1 = true ∧
     (SetTPCdEdxSigmaCut s id 0).2.fTPCEnabledSpeciesMask id = false ∧
     (SetTPCdEdxSigmaCut s id 0).2.fTPCnSigmaBelow id = -100 ∧
     (SetTPCdEdxSigmaCut s id 0).2.fTPCnSigmaAbove id = 100 ∧
     ((∀ sp, s.fTPCEnabledSpeciesMask sp = true → sp = id) →
       (SetTPCdEdxSigmaCut s id 0).2.fCutsEnabledMask .kTPCdEdxSigmaCut = false)) ∧
    ((SetTOFSigmaCut s id 0).1 = true ∧
     (SetTOFSigmaCut s id 0).2.fTOFEnabledSpeciesMask id = false ∧
     (SetTOFSigmaCut s id 0).2.fTOFnSigmaBelow id = -100 ∧
     (SetTOFSigmaCut s id 0).2.fTOFnSigmaAbove id = 100 ∧
     ((∀ sp, s.fTOFEnabledSpeciesMask sp = true → sp = id) →
       (SetTOFSigmaCut s id 0).2.fCutsEnabledMask .kTOFSigmaCut = false)) := by
  refine ⟨?_, ?_, ?_, ?_, ?_, ?_⟩
  · cases ht : itsdEdxBandTable code with
    | none => simp [SetITSdEdxSigmaCut, ht]
    | some tr =>
      obtain ⟨en, lo, hi⟩ := tr
      intro _
      simp [SetITSdEdxSigmaCut, ht]
  · cases ht : tpcdEdxBandTable code with
    | none => simp [SetTPCdEdxSigmaCut, ht]
    | some tr =>
      obtain ⟨en, lo, hi⟩ := tr
      intro _
      simp [SetTPCdEdxSigmaCut, ht]
  · cases ht : tofBandTable code with
    | none => simp [SetTOFSigmaCut, ht]
    | some tr =>
      obtain ⟨en, lo, hi⟩ := tr
      intro _
      simp [SetTOFSigmaCut, ht]
  · refine ⟨rfl, by simp [SetITSdEdxSigmaCut, itsdEdxBandTable],
      by simp [SetITSdEdxSigmaCut, itsdEdxBandTable],
      by simp [SetITSdEdxSigmaCut, itsdEdxBandTable], ?_⟩
    intro honly
    have hz := update_false_countBits_zero s.fITSEnabledSpeciesMask id honly
    simp [SetITSdEdxSigmaCut, itsdEdxBandTable, hz]
  · refine ⟨rfl, by simp [SetTPCdEdxSigmaCut, tpcdEdxBandTable],
      by simp [SetTPCdEdxSigmaCut, tpcdEdxBandTable],
      by simp [SetTPCdEdxSigmaCut, tpcdEdxBandTable], ?_⟩
    intro honly
    have hz := update_false_countBits_zero s.fTPCEnabledSpeciesMask id honly
    simp [SetTPCdEdxSigmaCut, tpcdEdxBandTable, hz]
  · refine ⟨rfl, by simp [SetTOFSigmaCut, tofBandTable],
      by simp [SetTOFSigmaCut, tofBandTable],
      by simp [SetTOFSigmaCut, tofBandTable], ?_⟩
    intro honly
    have hz := update_false_countBits_zero s.fTOFEnabledSpeciesMask id honly
    simp [SetTOFSigmaCut, tofBandTable, hz]

/-- Witness for claim C2: on a fresh pion cut, enabling the pion ITS band
with code 3 sets the ITS enabled bit consistently with the species count,
and disabling it again with code 0 (the pion being the only enabled
species) clears the ITS detector-level bit. -/
theorem bandSetter_enable_invariant_witness :
    ((SetITSdEdxSigmaCut (constructedState .kPion) .kPion 3).2.fCutsEnabledMask
        .kITSdEdxSigmaCut = true ↔
      0 < countBits (SetITSdEdxSigmaCut (constructedState .kPion) .kPion
        3).2.fITSEnabledSpeciesMask) ∧
    (SetITSdEdxSigmaCut (constructedState .kPion) .kPion 0).2.fCutsEnabledMask
        .kITSdEdxSigmaCut = false :=
  ⟨(bandSetter_enable_invariant (constructedState .kPion) .kPion 3).1 rfl,
   (bandSetter_enable_invariant (constructedState .kPion) .kPion
     0).2.2.2.1.2.2.2.2
     (fun sp h => absurd h (by simp [constructedState]))⟩

/-- Claim C3: an out-of-range preset value is rejected by
`SetCutAndParams` (through any parameter ID decoding to a supported
parameter, and trivially for a malformed ID) and by each underlying
setter, with the entire configuration state — band bounds, enable masks,
momentum window and the `fParameters` store — left unchanged. -/
theorem rejectedValue_leaves_state_unchanged (s : PIDCutsState)
    (paramID value : Int) (id : PSpecies) :
    ((∀ p, cutsParametersIds paramID = some p → supportedValue p value = false) →
      SetCutAndParams s paramID value = (false, s)) ∧
    (¬(0 ≤ value ∧ value ≤ 9) → SetPMin s value = (false, s)) ∧
    (¬(0 ≤ value ∧ value ≤ 8) → SetPMax s value = (false, s)) ∧
    (¬(0 ≤ value ∧ value ≤ 8) → SetITSdEdxSigmaCut s id value = (false, s)) ∧
    (¬(0 ≤ value ∧ value ≤ 9) → SetTPCdEdxSigmaCut s id value = (false, s)) ∧
    (¬(0 ≤ value ∧ value ≤ 5) → SetTOFSigmaCut s id value = (false, s)) ∧
    (¬(0 ≤ value ∧ value ≤ 3) → SetTPCTOFCut s value = (false, s)) := by
  refine ⟨?_, fun h => SetPMin_out_of_range s h, fun h => SetPMax_out_of_range s h,
    fun h => SetITSdEdxSigmaCut_out_of_range s id h,
    fun h => SetTPCdEdxSigmaCut_out_of_range s id h,
    fun h => SetTOFSigmaCut_out_of_range s id h,
    fun h => SetTPCTOFCut_out_of_range s h⟩
  intro hall
  rcases hp : cutsParametersIds paramID with _ | p
  · simp [SetCutAndParams, hp]
  · have hv := hall p hp
    cases p <;>
      simp only [supportedValue, decide_eq_false_iff_not] at hv <;>
      simp only [SetCutAndParams, hp] <;>
      first
      | exact applyAndStore_fail _ _ _ _ (SetPMin_out_of_range s hv)
      | exact applyAndStore_fail _ _ _ _ (SetPMax_out_of_range s hv)
      | exact applyAndStore_fail _ _ _ _ (SetITSdEdxSigmaCut_out_of_range s _ hv)
      | exact applyAndStore_fail _ _ _ _ (SetTPCdEdxSigmaCut_out_of_range s _ hv)
      | exact applyAndStore_fail _ _ _ _ (SetTOFSigmaCut_out_of_range s _ hv)
      | exact applyAndStore_fail _ _ _ _ (SetTPCTOFCut_out_of_range s hv)

/-- Witness for claim C3: the value 99 is out of range for every
parameter; through parameter ID 0 and directly at each setter, it is
rejected with the fresh pion-cut state unchanged. -/
theorem rejectedValue_leaves_state_unchanged_witness :
    SetCutAndParams (constructedState .kPion) 0 99 =
      (false, constructedState .kPion) ∧
    SetPMin (constructedState .kPion) 99 = (false, constructedState .kPion) ∧
    SetPMax (constructedState .kPion) 99 = (false, constructedState .kPion) ∧
    SetITSdEdxSigmaCut (constructedState .kPion) .kElectron 99 =
      (false, constructedState .kPion) ∧
    SetTPCdEdxSigmaCut (constructedState .kPion) .kElectron 99 =
      (false, constructedState .kPion) ∧
    SetTOFSigmaCut (constructedState .kPion) .kElectron 99 =
      (false, constructedState .kPion) ∧
    SetTPCTOFCut (constructedState .kPion) 99 = (false, constructedState .kPion) :=
  have h := rejectedValue_leaves_state_unchanged (constructedState .kPion) 0 99
    .kElectron
  ⟨h.1 (by decide), h.2.1 (by decide), h.2.2.1 (by decide), h.2.2.2.1 (by decide),
   h.2.2.2.2.1 (by decide), h.2.2.2.2.2.1 (by decide), h.2.2.2.2.2.2 (by decide)⟩

/-- Claim C9: `SetCutAndParams` is idempotent — applying it a second time
with the same parameter ID and value leaves the configuration state
(momentum window, band tables, enable masks, TOF-required flag, parameter
store and the regenerated cuts string) and the returned status exactly as
after the first application. -/
theorem setCutAndParams_idempotent (s : PIDCutsState) (paramID value : Int) :
    SetCutAndParams (SetCutAndParams s paramID value).2 paramID value =
      SetCutAndParams s paramID value := by
  rcases hp : cutsParametersIds paramID with _ | p
  · simp [SetCutAndParams, hp]
  · cases p <;>
      simp only [SetCutAndParams, hp] <;>
      first
      | exact applyAndStore_idem _ _ _ _ (SetPMin_fail_eq s value)
          (fun hr => SetPMin_reapply s value hr)
      | exact applyAndStore_idem _ _ _ _ (SetPMax_fail_eq s value)
          (fun hr => SetPMax_reapply s value hr)
      | exact applyAndStore_idem _ _ _ _ (SetITSdEdxSigmaCut_fail_eq s _ value)
          (fun hr => SetITSdEdxSigmaCut_reapply s _ value hr)
      | exact applyAndStore_idem _ _ _ _ (SetTPCdEdxSigmaCut_fail_eq s _ value)
          (fun hr => SetTPCdEdxSigmaCut_reapply s _ value hr)
      | exact applyAndStore_idem _ _ _ _ (SetTOFSigmaCut_fail_eq s _ value)
          (fun hr => SetTOFSigmaCut_reapply s _ value hr)
      | exact applyAndStore_idem _ _ _ _ (SetTPCTOFCut_fail_eq s value)
          (fun hr => SetTPCTOFCut_reapply s value hr)

end AliCSPIDCuts
